import Mathlib

/-!
Shallow embedding of `src/examples/python/databricks-example-console/src/databricks_example/app.py`
(the single source file of the repository), together with theorems settling the
frozen claims about it.

Python values that appear in display cells are modelled by `Option String`:
`none` is Python's `None`, and `some s` is a non-`None` value whose `str()` form
is `s` and which compares equal to `""` exactly when `s = ""` (exact for the
string and `None` values the claims are about).  A result row (a dict in
Python) is modelled as an association list; `dict.get` returns `None` for a
missing key, which coincides with `none` here.  Console printing is modelled by
recording the printed strings (or the relevant subset of them) in the function
results.
-/

namespace DatabricksExample

/-- The `str()` form of a displayed cell value: `str(None) = "None"`, and a
non-`None` value is modelled by its string form directly. -/
def strForm : Option String → String
  | none => "None"
  | some s => s

/-- Embeds the cell-rendering logic of `display_results_table` (app.py lines
217-224): a `None` value or one equal to `""` renders as the dimmed `NULL`
placeholder; otherwise the string form is truncated to its first 27 characters
plus `"..."` when longer than 30 characters, and shown whole otherwise. -/
def renderCell (value : Option String) : String :=
  match value with
  | none => "[dim]NULL[/dim]"
  | some s =>
    if s = "" then "[dim]NULL[/dim]"
    else if s.length > 30 then s.take 27 ++ "..." else s

/-- A result row: a Python dict from column name to value, as an association
list. -/
abbrev Row := List (String × Option String)

/-- Embeds `row.get(col_name)`: first binding for the key, `none` when the key
is missing or bound to `None`. -/
def rowGet (row : Row) (key : String) : Option String :=
  match List.find? (fun p => p.1 = key) row with
  | none => none
  | some p => p.2

/-- A query result as `display_results_table` reads it: `result.columns` is a
list of `(name, type)` pairs and `result.rows` a list of dict-like rows. -/
structure QueryResult where
  columns : List (String × String)
  rows : List Row

/-- The observable output of `display_results_table`: the early-return notice
(`"No columns in result"` / `"No rows in result"`) if any, the rendered table
body, and the two optional `"Showing ... of ..."` footers. -/
structure DisplayOutput where
  notice : Option String
  renderedRows : List (List String)
  colNote : Option String
  rowNote : Option String
deriving DecidableEq

/-- The `max_columns = 10` bound from app.py line 204. -/
def max_columns : Nat := 10

/-- Embeds `display_results_table` (app.py lines 191-233): early return on an
empty column or row list, otherwise render `min 10` rows over the first 10
columns via `renderCell`, then print the column and row `"Showing ..."`
messages exactly when something was cut off. -/
def display_results_table (result : QueryResult) : DisplayOutput :=
  if result.columns = [] then
    { notice := some "[yellow]No columns in result[/yellow]",
      renderedRows := [], colNote := none, rowNote := none }
  else if result.rows = [] then
    { notice := some "[yellow]No rows in result[/yellow]",
      renderedRows := [], colNote := none, rowNote := none }
  else
    let columns_to_show := result.columns.take max_columns
    let rows_to_show := min 10 result.rows.length
    { notice := none,
      renderedRows :=
        (result.rows.take rows_to_show).map (fun row =>
          columns_to_show.map (fun col => renderCell (rowGet row col.1))),
      colNote :=
        if result.columns.length > max_columns then
          some ("[dim]Showing " ++ toString max_columns ++ " of "
                ++ toString result.columns.length ++ " columns[/dim]")
        else none,
      rowNote :=
        if result.rows.length > rows_to_show then
          some ("[dim]Showing " ++ toString rows_to_show ++ " of "
                ++ toString result.rows.length ++ " rows[/dim]")
        else none }

/-- A credential object handed to `DatabricksConfig` (the two concrete Azure
credential classes the file constructs). -/
inductive Credential where
  | interactiveBrowser
  | defaultAzure
deriving DecidableEq

/-- The `DatabricksConfig` fields this file constructs: the SDK constructor is
called with `workspace_url` and either a `credential` or an `access_token`. -/
structure DatabricksConfig where
  workspace_url : String
  credential : Option Credential
  access_token : Option String
deriving DecidableEq

/-- An `os.getenv(NAME)` result combined with the interactive `Prompt.ask`
fallback (`if not value: value = Prompt.ask(...)`): a set, non-empty variable
is used as-is; an unset variable — or one set to `""`, which is falsy in
Python — falls back to the prompt.  Returns the value used and whether the
prompt was shown. -/
def envOrPrompt (envValue : Option String) (promptValue : String) : String × Bool :=
  match envValue with
  | none => (promptValue, true)
  | some v => if v = "" then (promptValue, true) else (v, false)

/-- Embeds `os.getenv("DEMO_MODE") == "true"` (app.py lines 28 and 281). -/
def demoModeFlag (demoModeEnv : Option String) : Bool :=
  demoModeEnv == some "true"

/-- The inputs `get_configuration` reads: the three environment variables, the
answers the user would give to the two prompts, and whether constructing
`DefaultAzureCredential()` succeeds (it is external; an exception from it is
what sends the code to the token fallback). -/
structure ConfigInputs where
  workspace_url_env : Option String
  token_env : Option String
  demo_mode_env : Option String
  workspace_url_prompt : String
  token_prompt : String
  default_cred_ok : Bool
deriving DecidableEq

/-- What `get_configuration` produces: its return value (`Optional` in the
Python signature) plus which prompts were shown. -/
structure ConfigResult where
  config : Option DatabricksConfig
  promptedWorkspaceUrl : Bool
  promptedToken : Bool
deriving DecidableEq

/-- Embeds `get_configuration` (app.py lines 24-60): resolve the workspace URL
from the environment with a prompt fallback; in demo mode return a config with
an `InteractiveBrowserCredential`; otherwise try `DefaultAzureCredential` and,
if that raises, fall back to a personal access token (environment variable with
prompt fallback).  Every branch returns a constructed config. -/
def get_configuration (i : ConfigInputs) : ConfigResult :=
  let ws := envOrPrompt i.workspace_url_env i.workspace_url_prompt
  if demoModeFlag i.demo_mode_env then
    { config := some { workspace_url := ws.1,
                       credential := some Credential.interactiveBrowser,
                       access_token := none },
      promptedWorkspaceUrl := ws.2, promptedToken := false }
  else if i.default_cred_ok then
    { config := some { workspace_url := ws.1,
                       credential := some Credential.defaultAzure,
                       access_token := none },
      promptedWorkspaceUrl := ws.2, promptedToken := false }
  else
    let tok := envOrPrompt i.token_env i.token_prompt
    { config := some { workspace_url := ws.1,
                       credential := none,
                       access_token := some tok.1 },
      promptedWorkspaceUrl := ws.2, promptedToken := tok.2 }

/-- Accumulates a decimal number over a character list, failing on the first
non-digit. -/
def parseNatAux : List Char → Nat → Option Nat
  | [], acc => some acc
  | c :: rest, acc =>
    if c.isDigit then parseNatAux rest (acc * 10 + (c.toNat - 48)) else none

/-- Python's `int(s)` builtin as used on `os.getenv("DEMO_LIMIT", "10")`:
an optionally signed run of decimal digits, with `none` modelling the
`ValueError` raised on anything else (exact on the decimal literals that
matter here). -/
def pythonInt (s : String) : Option Int :=
  match s.data with
  | [] => none
  | '-' :: rest =>
    if rest = [] then none
    else Option.map (fun n => -(n : Int)) (parseNatAux rest 0)
  | '+' :: rest =>
    if rest = [] then none
    else Option.map (fun n => (n : Int)) (parseNatAux rest 0)
  | cs => Option.map (fun n => (n : Int)) (parseNatAux cs 0)

/-- The default demo query of `stream_dataset_demo` (app.py line 126), with the
limit interpolated into its `LIMIT` clause. -/
def defaultDemoSql (limit : Int) : String :=
  "SELECT * FROM `samples`.`accuweather`.`forecast_daily_calendar_metric` LIMIT "
    ++ toString limit

/-- The SQL `stream_dataset_demo` executes:
`os.getenv("DEMO_QUERY") or f"... LIMIT {limit}"` — the environment override is
used when set and non-empty (Python `or` skips falsy values), else the default
query embedding the limit. -/
def stream_dataset_demo_sql (demoQueryEnv : Option String) (limit : Int) : String :=
  match demoQueryEnv with
  | none => defaultDemoSql limit
  | some q => if q = "" then defaultDemoSql limit else q

/-- The loop state of `stream_dataset` (app.py lines 103-117): the running
`row_count` and the sequence of `advance` amounts sent to the progress bar. -/
structure StreamState where
  row_count : Nat
  advances : List Nat
deriving DecidableEq

/-- One iteration of `for _ in client.execute_query_stream(...)`:
`row_count += 1` and `progress.update(task, advance=1)`. -/
def streamStep (s : StreamState) (_row : Row) : StreamState :=
  { row_count := s.row_count + 1, advances := s.advances ++ [1] }

/-- Embeds the consuming loop of `stream_dataset` over the (finite) sequence of
rows the external client yields, starting from `row_count = 0` and an untouched
progress bar. -/
def stream_dataset_run (rows : List Row) : StreamState :=
  rows.foldl streamStep { row_count := 0, advances := [] }

/-- The final `"Streamed {row_count} rows in {elapsed:.2f} seconds"` report of
`stream_dataset` (app.py line 120), with the wall-clock part abstracted as a
string argument. -/
def stream_dataset_report (rows : List Row) (elapsed : String) : String :=
  "[green]✓[/green] Streamed " ++ toString (stream_dataset_run rows).row_count
    ++ " rows in " ++ elapsed ++ " seconds"

/-- The exception classes the `try/except` ladders distinguish, by the most
specific class an exception instance belongs to:
`DatabricksAuthenticationException`, a `DatabricksException` that is not an
authentication one, or any other `Exception`.  The three `except` clauses
appear most-specific-first (app.py lines 304-312 and 343-348), so an exception
is always caught by the clause of its own tier. -/
inductive ExnClass where
  | databricksAuth
  | databricks
  | generic
deriving DecidableEq

/-- The message each `except` clause prints for the exception it catches. -/
def handlerMessage (k : ExnClass) (msg : String) : String :=
  match k with
  | ExnClass.databricksAuth => "[red]✗ Authentication failed:[/red] " ++ msg
  | ExnClass.databricks => "[red]✗ Databricks error:[/red] " ++ msg
  | ExnClass.generic => "[red]✗ Error:[/red] " ++ msg

/-- Outcome of one call into the external client: it returns normally, or it
raises an exception of some class with some message. -/
inductive StepOutcome where
  | ok
  | exn (k : ExnClass) (msg : String)
deriving DecidableEq

/-- One trip through the interactive menu: the choice `Prompt.ask` returns
(constrained to `"1"`-`"6"` by `choices=`) and, for the choices that call the
client, the outcome of that call. -/
structure MenuEntry where
  choice : String
  outcome : StepOutcome
deriving DecidableEq

/-- Embeds the `while True` menu loop of `main` (app.py lines 315-350) over a
finite prefix of the user's interactions: choice `"6"` returns 0; any other
choice runs its action inside `try`, and an exception is printed by the
matching `except` clause after which the loop continues.  Returns the exit code
(`none` while the loop is still awaiting further input) and the list of error
messages printed. -/
def menuLoop : List MenuEntry → Option Nat × List String
  | [] => (none, [])
  | e :: rest =>
    if e.choice = "6" then (some 0, [])
    else
      match e.outcome with
      | StepOutcome.ok => menuLoop rest
      | StepOutcome.exn k m =>
        ((menuLoop rest).1, handlerMessage k m :: (menuLoop rest).2)

/-- Everything `main` reads from its environment: the environment variables,
the prompt answers, the external credential outcome, the outcomes of the two
demo-mode client calls (`execute_quick_query` then the
`stream_dataset_demo` query), and the interactive menu interactions. -/
structure MainInputs where
  workspace_url_env : Option String
  token_env : Option String
  demo_mode_env : Option String
  demo_limit_env : Option String
  demo_query_env : Option String
  warehouse_id_env : Option String
  workspace_url_prompt : String
  token_prompt : String
  warehouse_id_prompt : String
  default_cred_ok : Bool
  quick_outcome : StepOutcome
  demo_stream_outcome : StepOutcome
  menu : List MenuEntry
deriving DecidableEq

/-- The `ConfigInputs` slice of `MainInputs` that `get_configuration` reads. -/
def MainInputs.configInputs (i : MainInputs) : ConfigInputs :=
  { workspace_url_env := i.workspace_url_env, token_env := i.token_env,
    demo_mode_env := i.demo_mode_env,
    workspace_url_prompt := i.workspace_url_prompt,
    token_prompt := i.token_prompt, default_cred_ok := i.default_cred_ok }

/-- The observable outcome of `main`: its return value (`none` when the
interactive loop is still awaiting input), whether the
`"Configuration failed"` branch was taken, the warehouse ID used and whether it
was prompted for, and the error messages printed by `except` clauses. -/
structure MainOutcome where
  exitCode : Option Nat
  configFailed : Bool
  warehouse_id : String
  promptedWarehouseId : Bool
  errors : List String
deriving DecidableEq

/-- Embeds the body of `main` after `config = get_configuration()` (app.py
lines 261-350), as a function of that config: `None` hits the
`"Configuration failed"` branch and returns 1; otherwise the warehouse ID is
resolved from the environment with a prompt fallback and either the demo
sequence runs (quick query, then `int(os.getenv("DEMO_LIMIT", "10"))`, then the
dataset demo — returning 0 on completion and 1 from whichever `except` clause
catches a raised exception) or the interactive menu loop runs. -/
def mainWithConfig (config : Option DatabricksConfig) (i : MainInputs) : MainOutcome :=
  match config with
  | none =>
    { exitCode := some 1, configFailed := true, warehouse_id := "",
      promptedWarehouseId := false, errors := [] }
  | some _ =>
    let wh := envOrPrompt i.warehouse_id_env i.warehouse_id_prompt
    if demoModeFlag i.demo_mode_env then
      match i.quick_outcome with
      | StepOutcome.exn k m =>
        { exitCode := some 1, configFailed := false, warehouse_id := wh.1,
          promptedWarehouseId := wh.2, errors := [handlerMessage k m] }
      | StepOutcome.ok =>
        match pythonInt ((i.demo_limit_env).getD "10") with
        | none =>
          { exitCode := some 1, configFailed := false, warehouse_id := wh.1,
            promptedWarehouseId := wh.2,
            errors := [handlerMessage ExnClass.generic
              ("invalid literal for int, with base 10: "
                ++ (i.demo_limit_env).getD "10")] }
        | some _limit =>
          match i.demo_stream_outcome with
          | StepOutcome.exn k m =>
            { exitCode := some 1, configFailed := false, warehouse_id := wh.1,
              promptedWarehouseId := wh.2, errors := [handlerMessage k m] }
          | StepOutcome.ok =>
            { exitCode := some 0, configFailed := false, warehouse_id := wh.1,
              promptedWarehouseId := wh.2, errors := [] }
    else
      { exitCode := (menuLoop i.menu).1, configFailed := false,
        warehouse_id := wh.1, promptedWarehouseId := wh.2,
        errors := (menuLoop i.menu).2 }

/-- Embeds `main` (app.py lines 251-350): obtain the configuration, then run
the rest of the entry point on it. -/
def mainRun (i : MainInputs) : MainOutcome :=
  mainWithConfig (get_configuration i.configInputs).config i

/-- Holds exactly when some menu entry chooses `"6"` (Exit): the loop exits
cleanly once it reaches the first such entry. -/
def menuHasExit (menu : List MenuEntry) : Bool :=
  menu.any (fun e => e.choice == "6")

/-- A concrete demo-mode run that completes: all environment variables of
interest set (or deliberately unset), both client calls succeed. -/
def sampleDemoOkInputs : MainInputs :=
  { workspace_url_env := some "https://adb.example.net",
    token_env := none,
    demo_mode_env := some "true",
    demo_limit_env := none,
    demo_query_env := none,
    warehouse_id_env := some "wh123",
    workspace_url_prompt := "prompted-url",
    token_prompt := "prompted-token",
    warehouse_id_prompt := "prompted-wh",
    default_cred_ok := true,
    quick_outcome := StepOutcome.ok,
    demo_stream_outcome := StepOutcome.ok,
    menu := [] }

/-- The same demo run with the quick query raising an authentication error. -/
def sampleDemoFailInputs : MainInputs :=
  { sampleDemoOkInputs with
    quick_outcome := StepOutcome.exn ExnClass.databricksAuth "denied" }

/-- A concrete interactive run: no demo mode, unset workspace URL and
warehouse ID (so both prompts fire), one failing query, then Exit. -/
def sampleMenuInputs : MainInputs :=
  { workspace_url_env := none,
    token_env := none,
    demo_mode_env := none,
    demo_limit_env := none,
    demo_query_env := none,
    warehouse_id_env := none,
    workspace_url_prompt := "prompted-url",
    token_prompt := "prompted-token",
    warehouse_id_prompt := "prompted-wh",
    default_cred_ok := true,
    quick_outcome := StepOutcome.ok,
    demo_stream_outcome := StepOutcome.ok,
    menu := [{ choice := "2", outcome := StepOutcome.exn ExnClass.databricks "boom" },
             { choice := "6", outcome := StepOutcome.ok }] }

/-- A concrete eleven-row, one-column query result. -/
def sampleElevenRows : QueryResult :=
  { columns := [("c", "int")],
    rows := List.replicate 11 [("c", some "1")] }

/-- A concrete three-row, one-column query result. -/
def sampleThreeRows : QueryResult :=
  { columns := [("c", "int")],
    rows := List.replicate 3 [("c", some "1")] }

/-! ## Theorems -/

/-- C9: a cell whose value is `None` or the empty string `""` is rendered as
the `NULL` placeholder, so the two are indistinguishable in the displayed
table. -/
theorem C9_none_and_empty_render_as_null :
    renderCell none = "[dim]NULL[/dim]" ∧
    renderCell (some "") = "[dim]NULL[/dim]" ∧
    renderCell none = renderCell (some "") := by
  refine ⟨rfl, by decide, by decide⟩

/-- C1 counterexample: the empty string is a displayed cell value whose string
form is 30 characters or shorter, yet it is not rendered in full — it is
rendered as the `NULL` placeholder — so the claim as stated is false. -/
theorem C1_counterexample_empty_string :
    (strForm (some "")).length ≤ 30 ∧ renderCell (some "") ≠ strForm (some "") := by
  decide

/-- C1 amended: for every displayed cell value other than `None` and the empty
string, if its string form is longer than 30 characters the rendered cell is
exactly its first 27 characters followed by `"..."`, and if it is 30
characters or shorter it is rendered in full. -/
theorem C1_truncation_amended (s : String) (hne : s ≠ "") :
    (30 < s.length → renderCell (some s) = s.take 27 ++ "...") ∧
    (s.length ≤ 30 → renderCell (some s) = s) := by
  refine ⟨fun h => ?_, fun h => ?_⟩
  · simp only [renderCell, if_neg hne, if_pos h]
  · simp only [renderCell, if_neg hne, if_neg (Nat.not_lt.mpr h)]

/-- C1 witness: a 32-character value is rendered as its first 27 characters
plus the ellipsis, and a 3-character value is rendered in full. -/
theorem C1_truncation_amended_witness :
    renderCell (some "abcdefghijklmnopqrstuvwxyz012345") =
      "abcdefghijklmnopqrstuvwxyz012345".take 27 ++ "..." ∧
    renderCell (some "abc") = "abc" :=
  ⟨(C1_truncation_amended "abcdefghijklmnopqrstuvwxyz012345" (by decide)).1 (by decide),
   (C1_truncation_amended "abc" (by decide)).2 (by decide)⟩

/-- C2: on a result with columns and more than 10 rows,
`display_results_table` renders exactly 10 rows and prints
`"Showing 10 of N rows"` with `N` the true length of `result.rows`; with 10 or
fewer rows it renders them all and prints no such message. -/
theorem C2_row_limit_and_count (r : QueryResult) (hc : r.columns ≠ []) :
    (10 < r.rows.length →
      (display_results_table r).renderedRows.length = 10 ∧
      (display_results_table r).rowNote =
        some ("[dim]Showing 10 of " ++ toString r.rows.length ++ " rows[/dim]")) ∧
    (r.rows.length ≤ 10 →
      (display_results_table r).renderedRows.length = r.rows.length ∧
      (display_results_table r).rowNote = none) := by
  constructor
  · intro h
    have hr : r.rows ≠ [] := by
      intro he
      rw [he] at h
      simp at h
    have hmin : min 10 r.rows.length = 10 := Nat.min_eq_left (by omega)
    simp only [display_results_table, if_neg hc, if_neg hr, hmin]
    refine ⟨?_, ?_⟩
    · simp only [List.length_map, List.length_take]
      omega
    · rw [if_pos (by omega : r.rows.length > 10)]
      rfl
  · intro h
    by_cases hr : r.rows = []
    · simp only [display_results_table, if_neg hc, if_pos hr, hr]
      exact ⟨rfl, rfl⟩
    · have hmin : min 10 r.rows.length = r.rows.length := Nat.min_eq_right h
      simp only [display_results_table, if_neg hc, if_neg hr, hmin]
      refine ⟨?_, ?_⟩
      · simp only [List.length_map, List.length_take]
        omega
      · rw [if_neg (by omega : ¬r.rows.length > r.rows.length)]

/-- C2 witness: on a concrete eleven-row result exactly 10 rendered rows and
the `"Showing 10 of 11 rows"` footer; on a concrete three-row result all 3
rows and no footer. -/
theorem C2_row_limit_and_count_witness :
    ((display_results_table sampleElevenRows).renderedRows.length = 10 ∧
     (display_results_table sampleElevenRows).rowNote =
       some ("[dim]Showing 10 of " ++ toString sampleElevenRows.rows.length ++ " rows[/dim]")) ∧
    ((display_results_table sampleThreeRows).renderedRows.length = sampleThreeRows.rows.length ∧
     (display_results_table sampleThreeRows).rowNote = none) :=
  ⟨(C2_row_limit_and_count sampleElevenRows (by decide)).1 (by decide),
   (C2_row_limit_and_count sampleThreeRows (by decide)).2 (by decide)⟩

/-- The streaming loop, started from any state, adds the number of consumed
rows to `row_count` and appends one `advance=1` update per row. -/
theorem streamStep_foldl (rows : List Row) (s : StreamState) :
    (rows.foldl streamStep s).row_count = s.row_count + rows.length ∧
    (rows.foldl streamStep s).advances = s.advances ++ List.replicate rows.length 1 := by
  induction rows generalizing s with
  | nil => simp
  | cons r rest ih =>
    obtain ⟨h1, h2⟩ := ih (streamStep s r)
    refine ⟨?_, ?_⟩
    · rw [List.foldl_cons, h1]
      simp only [streamStep, List.length_cons]
      omega
    · rw [List.foldl_cons, h2]
      simp [streamStep, List.replicate_succ]

/-- C6: for every finite sequence of rows yielded by the stream,
`stream_dataset` advances the progress bar by exactly one step per row and its
final report counts exactly the yielded rows. -/
theorem C6_stream_one_step_per_row (rows : List Row) (elapsed : String) :
    (stream_dataset_run rows).row_count = rows.length ∧
    (stream_dataset_run rows).advances = List.replicate rows.length 1 ∧
    stream_dataset_report rows elapsed =
      "[green]✓[/green] Streamed " ++ toString rows.length ++ " rows in "
        ++ elapsed ++ " seconds" := by
  obtain ⟨h1, h2⟩ := streamStep_foldl rows { row_count := 0, advances := [] }
  have h1c : (stream_dataset_run rows).row_count = rows.length := by
    rw [stream_dataset_run, h1]
    simp
  have h2c : (stream_dataset_run rows).advances = List.replicate rows.length 1 := by
    rw [stream_dataset_run, h2]
    simp
  refine ⟨h1c, h2c, ?_⟩
  rw [stream_dataset_report, h1c]

/-- A set, non-empty environment variable is used as-is without prompting. -/
theorem envOrPrompt_set (v p : String) (h : v ≠ "") :
    envOrPrompt (some v) p = (v, false) := by
  simp [envOrPrompt, h]

/-- An unset environment variable falls back to the prompted value. -/
theorem envOrPrompt_unset (p : String) : envOrPrompt none p = (p, true) := rfl

/-- `get_configuration` always returns a config; its workspace URL and
workspace prompting come from `envOrPrompt` on `DATABRICKS_WORKSPACE_URL`
regardless of the authentication branch taken. -/
theorem get_configuration_fields (i : ConfigInputs) :
    ((get_configuration i).config).isSome = true ∧
    (get_configuration i).promptedWorkspaceUrl =
      (envOrPrompt i.workspace_url_env i.workspace_url_prompt).2 ∧
    ((get_configuration i).config).map DatabricksConfig.workspace_url =
      some (envOrPrompt i.workspace_url_env i.workspace_url_prompt).1 := by
  by_cases h1 : demoModeFlag i.demo_mode_env = true
  · simp [get_configuration, h1]
  · by_cases h2 : i.default_cred_ok = true
    · simp [get_configuration, h1, h2]
    · simp [get_configuration, h1, h2]

/-- Once a config exists, `main` never takes the configuration-failure branch
and resolves the warehouse ID from `DATABRICKS_WAREHOUSE_ID` with a prompt
fallback, in demo mode and interactive mode alike. -/
theorem mainWithConfig_some_fields (cfg : DatabricksConfig) (i : MainInputs) :
    (mainWithConfig (some cfg) i).configFailed = false ∧
    (mainWithConfig (some cfg) i).warehouse_id =
      (envOrPrompt i.warehouse_id_env i.warehouse_id_prompt).1 ∧
    (mainWithConfig (some cfg) i).promptedWarehouseId =
      (envOrPrompt i.warehouse_id_env i.warehouse_id_prompt).2 := by
  by_cases h1 : demoModeFlag i.demo_mode_env = true
  · rcases hq : i.quick_outcome with _ | ⟨k, m⟩
    · rcases hl : pythonInt ((i.demo_limit_env).getD "10") with _ | l
      · simp [mainWithConfig, h1, hq, hl]
      · rcases hs : i.demo_stream_outcome with _ | ⟨k2, m2⟩
        · simp [mainWithConfig, h1, hq, hl, hs]
        · simp [mainWithConfig, h1, hq, hl, hs]
    · simp [mainWithConfig, h1, hq]
  · simp [mainWithConfig, h1]

/-- C8: every `DatabricksConfig` that `get_configuration` returns carries a
credential or an access token, on each of its three construction paths. -/
theorem C8_config_has_credential_or_token (i : ConfigInputs) (c : DatabricksConfig)
    (h : (get_configuration i).config = some c) :
    c.credential.isSome = true ∨ c.access_token.isSome = true := by
  by_cases h1 : demoModeFlag i.demo_mode_env = true
  · simp [get_configuration, h1] at h
    simp [← h]
  · by_cases h2 : i.default_cred_ok = true
    · simp [get_configuration, h1, h2] at h
      simp [← h]
    · simp [get_configuration, h1, h2] at h
      simp [← h]

/-- C8 witness: the demo-mode path yields a config with a credential. -/
theorem C8_config_has_credential_or_token_witness :
    ({ workspace_url := "https://adb.example.net",
       credential := some Credential.interactiveBrowser,
       access_token := none } : DatabricksConfig).credential.isSome = true ∨
    ({ workspace_url := "https://adb.example.net",
       credential := some Credential.interactiveBrowser,
       access_token := none } : DatabricksConfig).access_token.isSome = true :=
  C8_config_has_credential_or_token sampleDemoOkInputs.configInputs
    { workspace_url := "https://adb.example.net",
      credential := some Credential.interactiveBrowser,
      access_token := none } (by decide)

/-- C10: `get_configuration` returns a config on every execution path, so the
`"Configuration failed"` branch of `main` is never taken. -/
theorem C10_config_failure_branch_unreachable (i : MainInputs) :
    ((get_configuration i.configInputs).config).isSome = true ∧
    (mainRun i).configFailed = false := by
  have h := (get_configuration_fields i.configInputs).1
  refine ⟨h, ?_⟩
  obtain ⟨cfg, hc⟩ := Option.isSome_iff_exists.mp h
  rw [mainRun, hc]
  exact (mainWithConfig_some_fields cfg i).1

/-- C7: for `DATABRICKS_WORKSPACE_URL` and `DATABRICKS_WAREHOUSE_ID`, a set
non-empty value is used without prompting, and an unset one falls back to the
interactive prompt. -/
theorem C7_env_with_prompt_fallback (i : MainInputs) :
    (∀ v, i.workspace_url_env = some v → v ≠ "" →
      (get_configuration i.configInputs).promptedWorkspaceUrl = false ∧
      ((get_configuration i.configInputs).config).map DatabricksConfig.workspace_url = some v) ∧
    (i.workspace_url_env = none →
      (get_configuration i.configInputs).promptedWorkspaceUrl = true ∧
      ((get_configuration i.configInputs).config).map DatabricksConfig.workspace_url =
        some i.workspace_url_prompt) ∧
    (∀ v, i.warehouse_id_env = some v → v ≠ "" →
      (mainRun i).promptedWarehouseId = false ∧ (mainRun i).warehouse_id = v) ∧
    (i.warehouse_id_env = none →
      (mainRun i).promptedWarehouseId = true ∧
      (mainRun i).warehouse_id = i.warehouse_id_prompt) := by
  obtain ⟨hs, hp, hw⟩ := get_configuration_fields i.configInputs
  obtain ⟨cfg, hc⟩ := Option.isSome_iff_exists.mp hs
  obtain ⟨-, hwid, hpw⟩ := mainWithConfig_some_fields cfg i
  have hrun : mainRun i = mainWithConfig (some cfg) i := by rw [mainRun, hc]
  refine ⟨?_, ?_, ?_, ?_⟩
  · intro v hv hne
    constructor
    · rw [hp]
      simp [MainInputs.configInputs, hv, envOrPrompt, hne]
    · rw [hw]
      simp [MainInputs.configInputs, hv, envOrPrompt, hne]
  · intro hv
    constructor
    · rw [hp]
      simp [MainInputs.configInputs, hv, envOrPrompt]
    · rw [hw]
      simp [MainInputs.configInputs, hv, envOrPrompt]
  · intro v hv hne
    constructor
    · rw [hrun, hpw]
      simp [hv, envOrPrompt, hne]
    · rw [hrun, hwid]
      simp [hv, envOrPrompt, hne]
  · intro hv
    constructor
    · rw [hrun, hpw]
      simp [hv, envOrPrompt]
    · rw [hrun, hwid]
      simp [hv, envOrPrompt]

/-- C7 witness: with both variables set and non-empty nothing is prompted and
the set values are used; with both unset the prompted values are used. -/
theorem C7_env_with_prompt_fallback_witness :
    ((get_configuration sampleDemoOkInputs.configInputs).promptedWorkspaceUrl = false ∧
     ((get_configuration sampleDemoOkInputs.configInputs).config).map
       DatabricksConfig.workspace_url = some "https://adb.example.net") ∧
    ((get_configuration sampleMenuInputs.configInputs).promptedWorkspaceUrl = true ∧
     ((get_configuration sampleMenuInputs.configInputs).config).map
       DatabricksConfig.workspace_url = some sampleMenuInputs.workspace_url_prompt) ∧
    ((mainRun sampleDemoOkInputs).promptedWarehouseId = false ∧
     (mainRun sampleDemoOkInputs).warehouse_id = "wh123") ∧
    ((mainRun sampleMenuInputs).promptedWarehouseId = true ∧
     (mainRun sampleMenuInputs).warehouse_id = sampleMenuInputs.warehouse_id_prompt) :=
  ⟨(C7_env_with_prompt_fallback sampleDemoOkInputs).1 "https://adb.example.net" rfl (by decide),
   (C7_env_with_prompt_fallback sampleMenuInputs).2.1 rfl,
   (C7_env_with_prompt_fallback sampleDemoOkInputs).2.2.1 "wh123" rfl (by decide),
   (C7_env_with_prompt_fallback sampleMenuInputs).2.2.2 rfl⟩

/-- The menu loop returns 0 once the interactions reach an Exit choice. -/
theorem menuLoop_exit (menu : List MenuEntry) (h : menuHasExit menu = true) :
    (menuLoop menu).1 = some 0 := by
  induction menu with
  | nil => simp [menuHasExit] at h
  | cons e rest ih =>
    by_cases he : e.choice = "6"
    · simp [menuLoop, he]
    · have h' : menuHasExit rest = true := by
        simp only [menuHasExit, List.any_cons, Bool.or_eq_true, beq_iff_eq] at h
        exact h.resolve_left he
      rcases ho : e.outcome with _ | ⟨k, m⟩
      · simpa [menuLoop, he, ho] using ih h'
      · simpa [menuLoop, he, ho] using ih h'

/-- The menu loop either is still awaiting input or has exited with 0; it
never produces another exit code. -/
theorem menuLoop_code (menu : List MenuEntry) :
    (menuLoop menu).1 = none ∨ (menuLoop menu).1 = some 0 := by
  induction menu with
  | nil => exact Or.inl rfl
  | cons e rest ih =>
    by_cases he : e.choice = "6"
    · exact Or.inr (by simp [menuLoop, he])
    · rcases ho : e.outcome with _ | ⟨k, m⟩
      · simpa [menuLoop, he, ho] using ih
      · simpa [menuLoop, he, ho] using ih

/-- C3: the configuration-failure branch returns 1; a demo run whose steps all
succeed returns 0; a demo run in which a client call raises returns 1; an
interactive run in which the user chooses Exit returns 0; and no other exit
code than 0 or 1 is ever produced. -/
theorem C3_exit_codes (i : MainInputs) :
    (mainWithConfig none i).exitCode = some 1 ∧
    (demoModeFlag i.demo_mode_env = true →
      i.quick_outcome = StepOutcome.ok →
      i.demo_stream_outcome = StepOutcome.ok →
      (pythonInt ((i.demo_limit_env).getD "10")).isSome = true →
      (mainRun i).exitCode = some 0) ∧
    (demoModeFlag i.demo_mode_env = true →
      (∃ k m, i.quick_outcome = StepOutcome.exn k m ∨
              i.demo_stream_outcome = StepOutcome.exn k m) →
      (mainRun i).exitCode = some 1) ∧
    (demoModeFlag i.demo_mode_env = false → menuHasExit i.menu = true →
      (mainRun i).exitCode = some 0) ∧
    (∀ n, (mainRun i).exitCode = some n → n = 0 ∨ n = 1) := by
  obtain ⟨cfg, hc⟩ :=
    Option.isSome_iff_exists.mp (get_configuration_fields i.configInputs).1
  have hrun : mainRun i = mainWithConfig (some cfg) i := by rw [mainRun, hc]
  refine ⟨rfl, ?_, ?_, ?_, ?_⟩
  · intro hd hq hs hp
    obtain ⟨l, hl⟩ := Option.isSome_iff_exists.mp hp
    simp [hrun, mainWithConfig, hd, hq, hl, hs]
  · rintro hd ⟨k, m, hor | hor⟩
    · simp [hrun, mainWithConfig, hd, hor]
    · rcases hq : i.quick_outcome with _ | ⟨k2, m2⟩
      · rcases hl : pythonInt ((i.demo_limit_env).getD "10") with _ | l
        · simp [hrun, mainWithConfig, hd, hq, hl]
        · simp [hrun, mainWithConfig, hd, hq, hl, hor]
      · simp [hrun, mainWithConfig, hd, hq]
  · intro hd hexit
    simp [hrun, mainWithConfig, hd, menuLoop_exit i.menu hexit]
  · intro n h
    by_cases hd : demoModeFlag i.demo_mode_env = true
    · rcases hq : i.quick_outcome with _ | ⟨k, m⟩
      · rcases hl : pythonInt ((i.demo_limit_env).getD "10") with _ | l
        · simp [hrun, mainWithConfig, hd, hq, hl] at h
          omega
        · rcases hs : i.demo_stream_outcome with _ | ⟨k2, m2⟩
          · simp [hrun, mainWithConfig, hd, hq, hl, hs] at h
            omega
          · simp [hrun, mainWithConfig, hd, hq, hl, hs] at h
            omega
      · simp [hrun, mainWithConfig, hd, hq] at h
        omega
    · simp [hrun, mainWithConfig, hd] at h
      rcases menuLoop_code i.menu with hm | hm
      · rw [hm] at h
        cases h
      · rw [hm] at h
        simp at h
        omega

/-- C3 witness: concrete runs hitting each exit path — configuration failure
gives 1, a clean demo gives 0, a failing demo gives 1, choosing Exit gives
0. -/
theorem C3_exit_codes_witness :
    (mainWithConfig none sampleDemoOkInputs).exitCode = some 1 ∧
    (mainRun sampleDemoOkInputs).exitCode = some 0 ∧
    (mainRun sampleDemoFailInputs).exitCode = some 1 ∧
    (mainRun sampleMenuInputs).exitCode = some 0 :=
  ⟨(C3_exit_codes sampleDemoOkInputs).1,
   (C3_exit_codes sampleDemoOkInputs).2.1 (by decide) rfl rfl (by decide),
   (C3_exit_codes sampleDemoFailInputs).2.2.1 (by decide)
     ⟨ExnClass.databricksAuth, "denied", Or.inl rfl⟩,
   (C3_exit_codes sampleMenuInputs).2.2.2.1 (by decide) (by decide)⟩

/-- C4: the three `except` tiers print their three distinct messages; in demo
mode an exception of any tier makes `main` return 1 after printing that tier's
message; in the interactive loop an exception of any tier is printed and the
loop continues with the same eventual exit code. -/
theorem C4_three_tier_exception_handling (i : MainInputs) (k : ExnClass) (m : String) :
    (handlerMessage ExnClass.databricksAuth m = "[red]✗ Authentication failed:[/red] " ++ m ∧
     handlerMessage ExnClass.databricks m = "[red]✗ Databricks error:[/red] " ++ m ∧
     handlerMessage ExnClass.generic m = "[red]✗ Error:[/red] " ++ m) ∧
    (demoModeFlag i.demo_mode_env = true → i.quick_outcome = StepOutcome.exn k m →
      (mainRun i).exitCode = some 1 ∧ (mainRun i).errors = [handlerMessage k m]) ∧
    (∀ (c : String) (rest : List MenuEntry), c ≠ "6" →
      (menuLoop ({ choice := c, outcome := StepOutcome.exn k m } :: rest)).1 =
        (menuLoop rest).1 ∧
      handlerMessage k m ∈
        (menuLoop ({ choice := c, outcome := StepOutcome.exn k m } :: rest)).2) := by
  obtain ⟨cfg, hc⟩ :=
    Option.isSome_iff_exists.mp (get_configuration_fields i.configInputs).1
  have hrun : mainRun i = mainWithConfig (some cfg) i := by rw [mainRun, hc]
  refine ⟨⟨rfl, rfl, rfl⟩, ?_, ?_⟩
  · intro hd hq
    constructor
    · simp [hrun, mainWithConfig, hd, hq]
    · simp [hrun, mainWithConfig, hd, hq]
  · intro c rest hc6
    constructor
    · simp [menuLoop, hc6]
    · simp [menuLoop, hc6]

/-- C4 witness: an authentication exception in a concrete demo run returns 1
with the authentication-tier message, and a Databricks exception in a concrete
menu interaction is printed while the loop's exit code is unchanged. -/
theorem C4_three_tier_exception_handling_witness :
    ((mainRun sampleDemoFailInputs).exitCode = some 1 ∧
     (mainRun sampleDemoFailInputs).errors =
       [handlerMessage ExnClass.databricksAuth "denied"]) ∧
    ((menuLoop (({ choice := "2",
                   outcome := StepOutcome.exn ExnClass.databricks "boom" } : MenuEntry) :: [])).1 =
       (menuLoop []).1 ∧
     handlerMessage ExnClass.databricks "boom" ∈
       (menuLoop (({ choice := "2",
                     outcome := StepOutcome.exn ExnClass.databricks "boom" } : MenuEntry) :: [])).2) :=
  ⟨(C4_three_tier_exception_handling sampleDemoFailInputs
      ExnClass.databricksAuth "denied").2.1 (by decide) rfl,
   (C4_three_tier_exception_handling sampleDemoFailInputs
      ExnClass.databricks "boom").2.2 "2" [] (by decide)⟩

/-- C5: with `DEMO_LIMIT` unset, `int(os.getenv("DEMO_LIMIT", "10"))` is 10,
and (absent a `DEMO_QUERY` override) the demo query embeds it as `LIMIT 10`. -/
theorem C5_demo_limit_defaults_to_ten (i : MainInputs) (h : i.demo_limit_env = none) :
    pythonInt ((i.demo_limit_env).getD "10") = some 10 ∧
    (i.demo_query_env = none →
      stream_dataset_demo_sql i.demo_query_env 10 =
        "SELECT * FROM `samples`.`accuweather`.`forecast_daily_calendar_metric` LIMIT 10") := by
  rw [h]
  refine ⟨by decide, fun hq => ?_⟩
  rw [hq]
  decide

/-- C5 witness: the concrete demo run with `DEMO_LIMIT` and `DEMO_QUERY`
unset uses limit 10 and the default query ending in `LIMIT 10`. -/
theorem C5_demo_limit_defaults_to_ten_witness :
    pythonInt ((sampleDemoOkInputs.demo_limit_env).getD "10") = some 10 ∧
    stream_dataset_demo_sql sampleDemoOkInputs.demo_query_env 10 =
      "SELECT * FROM `samples`.`accuweather`.`forecast_daily_calendar_metric` LIMIT 10" :=
  ⟨(C5_demo_limit_defaults_to_ten sampleDemoOkInputs rfl).1,
   (C5_demo_limit_defaults_to_ten sampleDemoOkInputs rfl).2 rfl⟩

end DatabricksExample
